import Mathlib

/-!
Shallow embedding of the PyVLM panel kernel (src/pyvlm/panel.py) together
with spec-modelled versions of the helper functions it imports from
src/pyvlm/geometry.py and src/pyvlm/vortices.py, which are not part of the
source tree.  Coordinates are embedded as exact rationals; the induced
velocity evaluator, which involves square roots and pi, lives over the
reals.  Fallible Python code (raising ValueError) is embedded as Except.
-/

/-- A 2D point / vector, as handed to `Panel` (numpy arrays of two floats in
the source, embedded as exact rational coordinates). -/
structure Pt where
  x : ℚ
  y : ℚ
deriving DecidableEq, Repr

/-- Componentwise subtraction, embedding numpy array subtraction `a - b`. -/
def Pt.sub (a b : Pt) : Pt := ⟨a.x - b.x, a.y - b.y⟩

/-- Componentwise addition, embedding numpy array addition `a + b`. -/
def Pt.add (a b : Pt) : Pt := ⟨a.x + b.x, a.y + b.y⟩

/-- Scalar multiplication `c * a` on 2D numpy vectors. -/
def Pt.smul (c : ℚ) (a : Pt) : Pt := ⟨c * a.x, c * a.y⟩

/-- The scalar `np.cross` of two 2D vectors: `u.x * v.y - u.y * v.x`. -/
def cross (u v : Pt) : ℚ := u.x * v.y - u.y * v.x

/-- Dot product of two 2D vectors. -/
def dot (u v : Pt) : ℚ := u.x * v.x + u.y * v.y

/-- Python's built-in `abs` on a rational. -/
def ratAbs (q : ℚ) : ℚ := if q < 0 then -q else q

/-- The error taxonomy of the core: `notParallel` and `unequalSpan` are the
two Malformed-Panel ValueErrors raised in panel.py (distinguished by their
message), `degenerateGeometry` is the degenerate-geometry failure of vortex
placement. -/
inductive PanelError where
  | notParallel
  | unequalSpan
  | degenerateGeometry
deriving DecidableEq, Repr

/-- Modelled from the spec: `area_4points` (src/pyvlm/geometry.py is not in
the source tree).  Spec 4.1: the area of the quadrilateral P1 P2 P3 P4 via
the shoelace / cross-product formula, "sum of half the magnitude of
successive edge cross products, or equivalently splitting into two
triangles"; pure, total, no validation of convexity or winding. -/
def area_4points (P1 P2 P3 P4 : Pt) : ℚ :=
  ratAbs (cross (Pt.sub P2 P1) (Pt.sub P3 P1)) / 2 +
    ratAbs (cross (Pt.sub P3 P1) (Pt.sub P4 P1)) / 2

/-- Modelled from the spec: `vortex_position_in_panel`
(src/pyvlm/vortices.py is not in the source tree).  Spec 4.2: given the four
panel corners (P1 bottom-right, P2 bottom-left, P3 top-left, P4 top-right,
chordwise edges P2→P1 and P3→P4), places A and D at quarter-chord on the two
chordwise edges, the trailing-leg anchors B and C one chord length
downstream of A and D, and the control point P at three-quarter-chord
mid-span; fails with a degenerate-geometry error when the edge P1P2 has zero
length.  Returns the list [P, A, B, C, D] (embedded as a quintuple). -/
def vortex_position_in_panel (P1 P2 P3 P4 : Pt) :
    Except PanelError (Pt × Pt × Pt × Pt × Pt) :=
  if Pt.sub P2 P1 = ⟨0, 0⟩ then .error .degenerateGeometry
  else
    let chordB := Pt.sub P1 P2
    let chordT := Pt.sub P4 P3
    let A := Pt.add P2 (Pt.smul (1/4) chordB)
    let D := Pt.add P3 (Pt.smul (1/4) chordT)
    let B := Pt.add A chordB
    let C := Pt.add D chordT
    let q3b := Pt.add P2 (Pt.smul (3/4) chordB)
    let q3t := Pt.add P3 (Pt.smul (3/4) chordT)
    let P := Pt.smul (1/2) (Pt.add q3b q3t)
    .ok (P, A, B, C, D)

/-- Singularity cutoff of the Biot-Savart evaluator: below this perpendicular
distance the denominator is clamped, giving a defined large-but-finite
value (spec 4.3, singularity policy (a)). -/
noncomputable def vortexCutoff : ℝ := 1 / 1000000000000

/-- Euclidean norm of a rational 2D vector, as a real number. -/
noncomputable def normR (u : Pt) : ℝ := Real.sqrt ((dot u u : ℚ) : ℝ)

/-- Modelled from the spec: the Biot-Savart contribution of one straight
vortex filament from X to Y, of unit circulation, at the field point F
(spec 4.3): `(1 / 4π) · (cosθ1 − cosθ2) / h` with h the perpendicular
distance from F to the filament line and the angle cosines taken at the two
endpoints; the out-of-plane (z) velocity component for in-plane points.
The denominator is clamped at `vortexCutoff`. -/
noncomputable def filamentW (F X Y : Pt) : ℝ :=
  let r0 := Pt.sub Y X
  let r1 := Pt.sub F X
  let r2 := Pt.sub F Y
  let h : ℝ := |((cross r0 r1 : ℚ) : ℝ)| / normR r0
  let c1 : ℝ := ((dot r1 r0 : ℚ) : ℝ) / (normR r1 * normR r0)
  let c2 : ℝ := ((dot r2 r0 : ℚ) : ℝ) / (normR r2 * normR r0)
  (c1 - c2) / (4 * Real.pi * max h vortexCutoff)

/-- Modelled from the spec: `v_induced_by_horseshoe_vortex`
(src/pyvlm/vortices.py is not in the source tree).  Spec 4.3: the velocity
induced at the field point by a horseshoe vortex of unit circulation made of
the bound segment and the two trailing legs anchored at B and C, summing the
Biot-Savart contributions of the three straight filaments B→A, A→D, D→C. -/
noncomputable def v_induced_by_horseshoe_vortex (F A B C D : Pt) : ℝ :=
  filamentW F B A + filamentW F A D + filamentW F D C

/-- The Panel aggregate: the four corner points stored by `__init__`
(P1 bottom-right, P2 bottom-left, P3 top-left, P4 top-right, clockwise). -/
structure Panel where
  P1 : Pt
  P2 : Pt
  P3 : Pt
  P4 : Pt
deriving DecidableEq, Repr

/-- Embedding of `Panel.__init__(P1, P2, P3, P4)`: stores the corners and
raises the Malformed-Panel ValueError "P1P2 and P3P4 not parallel" when
`np.cross(P2 - P1, P4 - P3) != 0`.  No other check is performed. -/
def Panel.init (P1 P2 P3 P4 : Pt) : Except PanelError Panel :=
  let P1P2 := Pt.sub P2 P1
  let P3P4 := Pt.sub P4 P3
  if cross P1P2 P3P4 ≠ 0 then .error .notParallel
  else .ok ⟨P1, P2, P3, P4⟩

/-- Embedding of `Panel.area`: delegates to `area_4points` on the panel's own
corners. -/
def Panel.area (p : Panel) : ℚ := area_4points p.P1 p.P2 p.P3 p.P4

/-- Embedding of `Panel.span`: computes `b = P3[1] - P2[1]` and
`b__ = P4[1] - P1[1]`, raises the Malformed-Panel ValueError when
`abs(b) != abs(b__)`, and returns `abs(b)` otherwise. -/
def Panel.span (p : Panel) : Except PanelError ℚ :=
  let b := p.P3.y - p.P2.y
  let b2 := p.P4.y - p.P1.y
  if ratAbs b ≠ ratAbs b2 then .error .unequalSpan
  else .ok (ratAbs b)

/-- Embedding of `Panel._vortex_position`: delegates to
`vortex_position_in_panel` on the panel's own corners, yielding the list
[P, A, B, C, D]. -/
def Panel.vortexPosition (p : Panel) : Except PanelError (Pt × Pt × Pt × Pt × Pt) :=
  vortex_position_in_panel p.P1 p.P2 p.P3 p.P4

/-- Embedding of `Panel.control_point`: the element at index 0 of the list
returned by `_vortex_position`. -/
def Panel.control_point (p : Panel) : Except PanelError Pt :=
  Except.map (fun q => q.1) p.vortexPosition

/-- Embedding of `Panel.induced_velocity(control_point_pos)`: calls
`_vortex_position` and passes its elements at indices 1, 2, 3, 4 as the
A, B, C, D arguments of `v_induced_by_horseshoe_vortex`, with the field
point first. -/
noncomputable def Panel.induced_velocity (p : Panel) (control_point_pos : Pt) :
    Except PanelError ℝ :=
  Except.map
    (fun q => v_induced_by_horseshoe_vortex control_point_pos q.2.1 q.2.2.1 q.2.2.2.1 q.2.2.2.2)
    p.vortexPosition

/-- State-passing embedding of the method call `panel.area()`: the Python
method body reads the stored corners and performs no assignment, so the
resulting object state is returned alongside the value. -/
def Panel.area_run (p : Panel) : ℚ × Panel := (p.area, p)

/-- State-passing embedding of the method call `panel.span()`. -/
def Panel.span_run (p : Panel) : Except PanelError ℚ × Panel := (p.span, p)

/-- State-passing embedding of the method call `panel.control_point()`. -/
def Panel.control_point_run (p : Panel) : Except PanelError Pt × Panel :=
  (p.control_point, p)

/-- State-passing embedding of the method call
`panel.induced_velocity(fp)`. -/
noncomputable def Panel.induced_velocity_run (p : Panel) (fp : Pt) :
    Except PanelError ℝ × Panel :=
  (p.induced_velocity fp, p)

/-- A quadrilateral with parallel edges P1P2 and P3P4 but unequal spans
(|P3.y - P2.y| = 1, |P4.y - P1.y| = 3). -/
def badPanel : Panel := ⟨⟨0, 0⟩, ⟨0, 1⟩, ⟨1, 2⟩, ⟨1, 3⟩⟩

/-- The spec's concrete unit square P1=(1,0), P2=(1,1), P3=(0,1),
P4=(0,0). -/
def squarePanel : Panel := ⟨⟨1, 0⟩, ⟨1, 1⟩, ⟨0, 1⟩, ⟨0, 0⟩⟩

/-- A degenerate panel whose four corners coincide. -/
def pointPanel : Panel := ⟨⟨2, 3⟩, ⟨2, 3⟩, ⟨2, 3⟩, ⟨2, 3⟩⟩

/-- A 4 x 2 rectangle in the source's corner convention (P1 bottom-right,
P2 bottom-left, P3 top-left, P4 top-right), on which the vortex placement
points are integral. -/
def vortexPanel : Panel := ⟨⟨4, 0⟩, ⟨0, 0⟩, ⟨0, 2⟩, ⟨4, 2⟩⟩

/-- A valid 1 x 2 rectangle (parallel chordwise edges, equal spans of 2). -/
def spanPanel : Panel := ⟨⟨1, 0⟩, ⟨0, 0⟩, ⟨0, 2⟩, ⟨1, 2⟩⟩

theorem ratAbs_eq_abs (q : ℚ) : ratAbs q = |q| := by
  unfold ratAbs
  rcases lt_or_le q 0 with h | h
  · rw [if_pos h, abs_of_neg h]
  · rw [if_neg (not_lt.mpr h), abs_of_nonneg h]

/-- C1, counterexample: the corners (0,0), (0,1), (1,2), (1,3) violate the
equal-span invariant (|P3.y - P2.y| = 1 while |P4.y - P1.y| = 3), yet
`Panel.__init__` succeeds and returns the panel object, so the claim that
every such construction raises is false. -/
theorem C1_cex_init_accepts_unequal_span :
    Panel.init ⟨0, 0⟩ ⟨0, 1⟩ ⟨1, 2⟩ ⟨1, 3⟩ = .ok badPanel ∧
    |badPanel.P3.y - badPanel.P2.y| ≠ |badPanel.P4.y - badPanel.P1.y| := by
  constructor
  · norm_num [Panel.init, cross, Pt.sub, badPanel]
  · show |(2 : ℚ) - 1| ≠ |(3 : ℚ) - 0|
    rw [show ((2 : ℚ) - 1) = 1 by norm_num, show ((3 : ℚ) - 0) = 3 by norm_num,
      abs_of_nonneg (by norm_num : (0:ℚ) ≤ 1), abs_of_nonneg (by norm_num : (0:ℚ) ≤ 3)]
    norm_num

/-- C1, amended: construction validates only the parallel-edges invariant;
whenever `np.cross(P2 - P1, P4 - P3) == 0` the Panel is constructed, even
with unequal spans, and the unequal-span Malformed-Panel error is raised by
`span()` (exactly when the two spans disagree), not at construction time. -/
theorem C1_init_ignores_span_invariant (P1 P2 P3 P4 : Pt)
    (hpar : cross (Pt.sub P2 P1) (Pt.sub P4 P3) = 0) :
    Panel.init P1 P2 P3 P4 = .ok (Panel.mk P1 P2 P3 P4) ∧
    ((Panel.mk P1 P2 P3 P4).span = .error .unequalSpan ↔
      |P3.y - P2.y| ≠ |P4.y - P1.y|) := by
  constructor
  · unfold Panel.init
    rw [if_neg (not_not_intro hpar)]
  · simp only [Panel.span, ratAbs_eq_abs]
    split_ifs with h
    · simp [h]
    · rw [not_not] at h
      simp [h]

/-- C1, witness for the amended theorem at the unequal-span corners
(0,0), (0,1), (1,2), (1,3). -/
theorem C1_init_ignores_span_invariant_witness :
    Panel.init ⟨0, 0⟩ ⟨0, 1⟩ ⟨1, 2⟩ ⟨1, 3⟩ =
      .ok (Panel.mk ⟨0, 0⟩ ⟨0, 1⟩ ⟨1, 2⟩ ⟨1, 3⟩) ∧
    ((Panel.mk ⟨0, 0⟩ ⟨0, 1⟩ ⟨1, 2⟩ ⟨1, 3⟩).span = .error .unequalSpan ↔
      |(2 : ℚ) - 1| ≠ |(3 : ℚ) - 0|) :=
  C1_init_ignores_span_invariant ⟨0, 0⟩ ⟨0, 1⟩ ⟨1, 2⟩ ⟨1, 3⟩
    (by norm_num [cross, Pt.sub])

/-- C2, counterexample: on the spec's concrete square P1=(1,0), P2=(1,1),
P3=(0,1), P4=(0,0), `span()` returns 0.0, not 1.0: the source computes the
span as |P3.y - P2.y| = |1 - 1| = 0. -/
theorem C2_cex_square_span_is_zero :
    Panel.init ⟨1, 0⟩ ⟨1, 1⟩ ⟨0, 1⟩ ⟨0, 0⟩ = .ok squarePanel ∧
    squarePanel.span = .ok 0 ∧ squarePanel.span ≠ .ok 1 := by
  refine ⟨?_, ?_, ?_⟩
  · norm_num [Panel.init, cross, Pt.sub, squarePanel]
  · norm_num [Panel.span, ratAbs, squarePanel]
  · norm_num [Panel.span, ratAbs, squarePanel]

/-- C2, amended: on the spec's concrete square P1=(1,0), P2=(1,1), P3=(0,1),
P4=(0,0), `area()` returns 1.0 but `span()` returns 0.0 (with this corner
ordering the y-extent |P3.y - P2.y| that the source calls the span is
zero). -/
theorem C2_square_area_one_span_zero :
    squarePanel.area = 1 ∧ squarePanel.span = .ok 0 := by
  constructor
  · norm_num [Panel.area, area_4points, cross, Pt.sub, ratAbs, squarePanel]
  · norm_num [Panel.span, ratAbs, squarePanel]

/-- C3, confirmed: `Panel.__init__` raises the not-parallel Malformed-Panel
error exactly when `np.cross(P2 - P1, P4 - P3)` is nonzero, and constructs
the panel exactly when that cross product is zero. -/
theorem C3_init_parallel_check (P1 P2 P3 P4 : Pt) :
    (Panel.init P1 P2 P3 P4 = .error .notParallel ↔
      cross (Pt.sub P2 P1) (Pt.sub P4 P3) ≠ 0) ∧
    (Panel.init P1 P2 P3 P4 = .ok (Panel.mk P1 P2 P3 P4) ↔
      cross (Pt.sub P2 P1) (Pt.sub P4 P3) = 0) := by
  simp only [Panel.init]
  split_ifs with h
  · simp [h]
  · rw [not_not] at h
    simp [h]

/-- C4, confirmed: for every Panel record (in particular every successfully
constructed one), `span()` raises the unequal-span Malformed-Panel error
exactly when |P3.y - P2.y| and |P4.y - P1.y| disagree, and otherwise
returns |P3.y - P2.y|; the check runs at every call. -/
theorem C4_span_recheck (p : Panel) :
    (p.span = .error .unequalSpan ↔ |p.P3.y - p.P2.y| ≠ |p.P4.y - p.P1.y|) ∧
    (p.span = .ok |p.P3.y - p.P2.y| ↔ |p.P3.y - p.P2.y| = |p.P4.y - p.P1.y|) := by
  simp only [Panel.span, ratAbs_eq_abs]
  split_ifs with h
  · simp [h]
  · rw [not_not] at h
    simp [h]

/-- C5, counterexample: the degenerate panel whose four corners coincide at
(2,3) satisfies both invariants (it is a valid Panel), and `span()` returns
0 on it, which is not positive. -/
theorem C5_cex_valid_panel_span_zero :
    cross (Pt.sub pointPanel.P2 pointPanel.P1) (Pt.sub pointPanel.P4 pointPanel.P3) = 0 ∧
    |pointPanel.P3.y - pointPanel.P2.y| = |pointPanel.P4.y - pointPanel.P1.y| ∧
    pointPanel.span = .ok 0 ∧ ¬ (0 : ℚ) < 0 := by
  refine ⟨?_, rfl, ?_, ?_⟩
  · norm_num [cross, Pt.sub, pointPanel]
  · norm_num [Panel.span, ratAbs, pointPanel]
  · norm_num

/-- C5, amended: for every valid Panel (parallel opposite edges and equal
spans), `span()` returns without error a nonnegative value equal to both
|P3.y - P2.y| and |P4.y - P1.y|; it is not always positive, since a valid
panel may have zero span. -/
theorem C5_valid_span_nonneg (p : Panel)
    (hpar : cross (Pt.sub p.P2 p.P1) (Pt.sub p.P4 p.P3) = 0)
    (hsp : |p.P3.y - p.P2.y| = |p.P4.y - p.P1.y|) :
    p.span = .ok |p.P3.y - p.P2.y| ∧ 0 ≤ |p.P3.y - p.P2.y| ∧
      p.span = .ok |p.P4.y - p.P1.y| := by
  refine ⟨?_, abs_nonneg _, ?_⟩
  · simp only [Panel.span, ratAbs_eq_abs]
    rw [if_neg (not_not_intro hsp)]
  · simp only [Panel.span, ratAbs_eq_abs]
    rw [if_neg (not_not_intro hsp), hsp]

/-- C5, witness for the amended theorem at the valid 1 x 2 rectangle. -/
theorem C5_valid_span_nonneg_witness :
    spanPanel.span = .ok |spanPanel.P3.y - spanPanel.P2.y| ∧
    0 ≤ |spanPanel.P3.y - spanPanel.P2.y| ∧
    spanPanel.span = .ok |spanPanel.P4.y - spanPanel.P1.y| :=
  C5_valid_span_nonneg spanPanel (by norm_num [cross, Pt.sub, spanPanel]) rfl

/-- C6, counterexample: the corners (0,0), (0,1), (1,2), (1,3) violate the
equal-span invariant, yet the Panel is constructed and both `area()` and
`control_point()` return values on it, so an invalid Panel does expose
partial results. -/
theorem C6_cex_invalid_panel_returns_values :
    Panel.init ⟨0, 0⟩ ⟨0, 1⟩ ⟨1, 2⟩ ⟨1, 3⟩ = .ok badPanel ∧
    badPanel.span = .error .unequalSpan ∧
    badPanel.area = 1 ∧
    badPanel.control_point = .ok ⟨1/2, 3/2⟩ := by
  refine ⟨?_, ?_, ?_, ?_⟩
  · norm_num [Panel.init, cross, Pt.sub, badPanel]
  · norm_num [Panel.span, ratAbs, badPanel]
  · norm_num [Panel.area, area_4points, cross, Pt.sub, ratAbs, badPanel]
  · norm_num [Panel.control_point, Panel.vortexPosition, vortex_position_in_panel,
      Pt.sub, Pt.add, Pt.smul, Pt.mk.injEq, badPanel, Except.map]

theorem vortex_position_ok_of_edge_ne (P1 P2 P3 P4 : Pt)
    (h : Pt.sub P2 P1 ≠ ⟨0, 0⟩) :
    ∃ t, vortex_position_in_panel P1 P2 P3 P4 = .ok t := by
  unfold vortex_position_in_panel
  rw [if_neg h]
  exact ⟨_, rfl⟩

/-- C6, amended: corners violating the parallel-edges invariant never
produce a Panel object, so no query can run on them; but corners violating
only the equal-span invariant construct a Panel that does expose partial
results: `area()` returns the `area_4points` value, and when the edge P1P2
has nonzero length `control_point()` and `induced_velocity()` also return
values, while only `span()` raises the Malformed-Panel error; when P1P2 has
zero length, `control_point()` and `induced_velocity()` instead fail with
the separate degenerate-geometry error of vortex placement, still not a
span check. -/
theorem C6_unequal_span_queries (P1 P2 P3 P4 fp : Pt) :
    (cross (Pt.sub P2 P1) (Pt.sub P4 P3) ≠ 0 →
      Panel.init P1 P2 P3 P4 = .error .notParallel) ∧
    (cross (Pt.sub P2 P1) (Pt.sub P4 P3) = 0 →
      |P3.y - P2.y| ≠ |P4.y - P1.y| →
      Panel.init P1 P2 P3 P4 = .ok (Panel.mk P1 P2 P3 P4) ∧
      (Panel.mk P1 P2 P3 P4).span = .error .unequalSpan ∧
      (Panel.mk P1 P2 P3 P4).area = area_4points P1 P2 P3 P4 ∧
      (Pt.sub P2 P1 ≠ ⟨0, 0⟩ →
        (∃ cp, (Panel.mk P1 P2 P3 P4).control_point = .ok cp) ∧
        (∃ v, (Panel.mk P1 P2 P3 P4).induced_velocity fp = .ok v)) ∧
      (Pt.sub P2 P1 = ⟨0, 0⟩ →
        (Panel.mk P1 P2 P3 P4).control_point = .error .degenerateGeometry ∧
        (Panel.mk P1 P2 P3 P4).induced_velocity fp = .error .degenerateGeometry)) := by
  constructor
  · intro hnp
    unfold Panel.init
    rw [if_pos hnp]
  · intro hpar hsp
    refine ⟨?_, ?_, rfl, ?_, ?_⟩
    · unfold Panel.init
      rw [if_neg (not_not_intro hpar)]
    · simp only [Panel.span, ratAbs_eq_abs]
      rw [if_pos hsp]
    · intro hedge
      obtain ⟨t, ht⟩ := vortex_position_ok_of_edge_ne P1 P2 P3 P4 hedge
      constructor
      · refine ⟨t.1, ?_⟩
        show Except.map (fun q => q.1) (vortex_position_in_panel P1 P2 P3 P4) = .ok t.1
        rw [ht]
        rfl
      · refine ⟨v_induced_by_horseshoe_vortex fp t.2.1 t.2.2.1 t.2.2.2.1 t.2.2.2.2, ?_⟩
        show Except.map
            (fun q => v_induced_by_horseshoe_vortex fp q.2.1 q.2.2.1 q.2.2.2.1 q.2.2.2.2)
            (vortex_position_in_panel P1 P2 P3 P4) = _
        rw [ht]
        rfl
    · intro hedge
      have hv : vortex_position_in_panel P1 P2 P3 P4 = .error .degenerateGeometry := by
        unfold vortex_position_in_panel
        rw [if_pos hedge]
      constructor
      · show Except.map (fun q => q.1) (vortex_position_in_panel P1 P2 P3 P4) =
          .error .degenerateGeometry
        rw [hv]
        rfl
      · show Except.map
            (fun q => v_induced_by_horseshoe_vortex fp q.2.1 q.2.2.1 q.2.2.2.1 q.2.2.2.2)
            (vortex_position_in_panel P1 P2 P3 P4) = .error .degenerateGeometry
        rw [hv]
        rfl

/-- C6, witness for the amended theorem at the unequal-span corners
(0,0), (0,1), (1,2), (1,3), whose edge P1P2 has nonzero length: the Panel
constructs, `span()` fails, and `area()`, `control_point()` and
`induced_velocity()` all return values. -/
theorem C6_unequal_span_queries_witness :
    Panel.init ⟨0, 0⟩ ⟨0, 1⟩ ⟨1, 2⟩ ⟨1, 3⟩ =
      .ok (Panel.mk ⟨0, 0⟩ ⟨0, 1⟩ ⟨1, 2⟩ ⟨1, 3⟩) ∧
    (Panel.mk ⟨0, 0⟩ ⟨0, 1⟩ ⟨1, 2⟩ ⟨1, 3⟩).span = .error .unequalSpan ∧
    (Panel.mk ⟨0, 0⟩ ⟨0, 1⟩ ⟨1, 2⟩ ⟨1, 3⟩).area =
      area_4points ⟨0, 0⟩ ⟨0, 1⟩ ⟨1, 2⟩ ⟨1, 3⟩ ∧
    (∃ cp, (Panel.mk ⟨0, 0⟩ ⟨0, 1⟩ ⟨1, 2⟩ ⟨1, 3⟩).control_point = .ok cp) ∧
    (∃ v, (Panel.mk ⟨0, 0⟩ ⟨0, 1⟩ ⟨1, 2⟩ ⟨1, 3⟩).induced_velocity ⟨9, 9⟩ = .ok v) := by
  have h := (C6_unequal_span_queries ⟨0, 0⟩ ⟨0, 1⟩ ⟨1, 2⟩ ⟨1, 3⟩ ⟨9, 9⟩).2
    (by norm_num [cross, Pt.sub])
    (by
      show |(2 : ℚ) - 1| ≠ |(3 : ℚ) - 0|
      rw [show ((2 : ℚ) - 1) = 1 by norm_num, show ((3 : ℚ) - 0) = 3 by norm_num,
        abs_of_nonneg (by norm_num : (0:ℚ) ≤ 1), abs_of_nonneg (by norm_num : (0:ℚ) ≤ 3)]
      norm_num)
  have hedge : Pt.sub (⟨0, 1⟩ : Pt) ⟨0, 0⟩ ≠ ⟨0, 0⟩ := by
    norm_num [Pt.sub, Pt.mk.injEq]
  exact ⟨h.1, h.2.1, h.2.2.1, (h.2.2.2.1 hedge).1, (h.2.2.2.1 hedge).2⟩

/-- C7, confirmed: `induced_velocity(fp)` is exactly the composition of
vortex placement and the Biot-Savart evaluator: when `_vortex_position`
yields the list [P, A, B, C, D] on the panel's own corners, the result is
`v_induced_by_horseshoe_vortex(fp, A, B, C, D)` in that argument order. -/
theorem C7_induced_velocity_composes (p : Panel) (fp P A B C D : Pt)
    (h : p.vortexPosition = .ok (P, A, B, C, D)) :
    p.induced_velocity fp = .ok (v_induced_by_horseshoe_vortex fp A B C D) := by
  unfold Panel.induced_velocity
  rw [h]
  rfl

/-- C7, witness on the 4 x 2 rectangle, whose vortex placement is
([P, A, B, C, D] = [(3,1), (1,0), (5,0), (5,2), (1,2)]). -/
theorem C7_induced_velocity_composes_witness :
    vortexPanel.induced_velocity ⟨9, 9⟩ =
      .ok (v_induced_by_horseshoe_vortex ⟨9, 9⟩ ⟨1, 0⟩ ⟨5, 0⟩ ⟨5, 2⟩ ⟨1, 2⟩) :=
  C7_induced_velocity_composes vortexPanel ⟨9, 9⟩ ⟨3, 1⟩ ⟨1, 0⟩ ⟨5, 0⟩ ⟨5, 2⟩ ⟨1, 2⟩
    (by norm_num [Panel.vortexPosition, vortex_position_in_panel, Pt.sub, Pt.add,
      Pt.smul, Pt.mk.injEq, vortexPanel])

/-- C8, confirmed: `control_point()` returns exactly the control-point
component P, the first element of the [P, A, B, C, D] list produced by
vortex placement on the panel's own corners. -/
theorem C8_control_point_is_first (p : Panel) (P A B C D : Pt)
    (h : p.vortexPosition = .ok (P, A, B, C, D)) :
    p.control_point = .ok P := by
  unfold Panel.control_point
  rw [h]
  rfl

/-- C8, witness on the 4 x 2 rectangle: the control point is (3,1). -/
theorem C8_control_point_is_first_witness :
    vortexPanel.control_point = .ok ⟨3, 1⟩ :=
  C8_control_point_is_first vortexPanel ⟨3, 1⟩ ⟨1, 0⟩ ⟨5, 0⟩ ⟨5, 2⟩ ⟨1, 2⟩
    (by norm_num [Panel.vortexPosition, vortex_position_in_panel, Pt.sub, Pt.add,
      Pt.smul, Pt.mk.injEq, vortexPanel])

/-- C9, confirmed: every Panel query leaves the stored corners unchanged
(the state-passing embeddings return the panel as it was), and any two
panels with the same corners give equal results for every query, so the
queries are read-only and referentially transparent. -/
theorem C9_queries_readonly_deterministic (p q : Panel) (fp : Pt)
    (h1 : p.P1 = q.P1) (h2 : p.P2 = q.P2) (h3 : p.P3 = q.P3) (h4 : p.P4 = q.P4) :
    (p.area_run.2 = p ∧ p.span_run.2 = p ∧ p.control_point_run.2 = p ∧
      (p.induced_velocity_run fp).2 = p) ∧
    (p.area = q.area ∧ p.span = q.span ∧ p.control_point = q.control_point ∧
      p.induced_velocity fp = q.induced_velocity fp) := by
  have hpq : p = q := by
    cases p
    cases q
    simp_all
  subst hpq
  exact ⟨⟨rfl, rfl, rfl, rfl⟩, rfl, rfl, rfl, rfl⟩

/-- C9, witness at the square panel compared with itself. -/
theorem C9_queries_readonly_deterministic_witness :
    (squarePanel.area_run.2 = squarePanel ∧ squarePanel.span_run.2 = squarePanel ∧
      squarePanel.control_point_run.2 = squarePanel ∧
      (squarePanel.induced_velocity_run ⟨0, 0⟩).2 = squarePanel) ∧
    (squarePanel.area = squarePanel.area ∧ squarePanel.span = squarePanel.span ∧
      squarePanel.control_point = squarePanel.control_point ∧
      squarePanel.induced_velocity ⟨0, 0⟩ = squarePanel.induced_velocity ⟨0, 0⟩) :=
  C9_queries_readonly_deterministic squarePanel squarePanel ⟨0, 0⟩ rfl rfl rfl rfl

/-- C10, confirmed: for every point Q the all-degenerate quadrilateral
Q, Q, Q, Q passes the construction check (the cross product of the two
zero-length edges is exactly zero), `span()` returns 0 without raising, and
`area()` returns 0: the Panel class's own checks accept zero-size
geometry. -/
theorem C10_degenerate_panel_accepted (Q : Pt) :
    Panel.init Q Q Q Q = .ok (Panel.mk Q Q Q Q) ∧
    cross (Pt.sub Q Q) (Pt.sub Q Q) = 0 ∧
    (Panel.mk Q Q Q Q).span = .ok 0 ∧
    (Panel.mk Q Q Q Q).area = 0 := by
  have hz : Pt.sub Q Q = ⟨0, 0⟩ := by simp [Pt.sub]
  have hc : cross (Pt.sub Q Q) (Pt.sub Q Q) = 0 := by
    rw [hz]
    norm_num [cross]
  refine ⟨?_, hc, ?_, ?_⟩
  · unfold Panel.init
    rw [if_neg (not_not_intro hc)]
  · simp [Panel.span, ratAbs]
  · simp [Panel.area, area_4points, hz, cross, ratAbs]
